import Mathlib

/-!
Verification of the CipherSquad certificate registry.

Shallow embedding of:
* `src/CertificateVerificationQR.sol` (contract `CertificateVerification`,
  the main registry: soft-delete revocation, two global counters) in
  namespace `CertQR`;
* the delete-on-revoke variant contract (`src/unnamed/part_005`) in
  namespace `CertIPFS`;
* the textual-key validation of the HTTP layer
  (`src/backend/mainserver.js`) in namespace `Server`.

Solidity `bytes32` keys and `address` values are modelled as `Nat`
(`0` is the zero hash / zero address).  A `mapping(bytes32 => Certificate)`
is a total function with the zero-value struct as default, exactly the
EVM storage semantics.  `require` failures and checked-arithmetic panics
revert the transaction, so state-mutating entry points return
`Except EvmError State`; a reverted call leaves the pre-state intact,
which `applyTx` makes explicit.  Counters are `uint256`: increments carry
the Solidity >=0.8 overflow check and `getStatistics`' subtraction the
underflow check (`Panic(0x11)`).
-/

namespace CertQR

def UINT256_MAX : Nat := 2 ^ 256 - 1

/-- The `Certificate` struct of `CertificateVerificationQR.sol`. -/
structure Certificate where
  isValid : Bool
  issuer : Nat
  issuedAt : Nat
deriving Repr, DecidableEq

/-- The zero-value struct an EVM mapping yields for an absent key. -/
def Certificate.zero : Certificate := ⟨false, 0, 0⟩

/-- Contract storage: the `certificates` mapping and the two counters. -/
structure State where
  certs : Nat → Certificate
  totalCertificatesIssued : Nat
  totalCertificatesRevoked : Nat

/-- Storage after the constructor ran: empty mapping, both counters 0. -/
def initState : State := ⟨fun _ => Certificate.zero, 0, 0⟩

/-- A reverted transaction: `Error(string)` from `require`, or a
`Panic(code)` from checked arithmetic (code 17 = 0x11). -/
inductive EvmError where
  | revert (msg : String)
  | arithmeticError (code : Nat)
deriving Repr, DecidableEq

/-- Storage write `certificates[certHash] = c`. -/
def State.store (s : State) (certHash : Nat) (c : Certificate) : Nat → Certificate :=
  fun k => if k = certHash then c else s.certs k

/-- `issueCertificate(bytes32 certHash)`: the `validHash` modifier, the two
`require`s, then the record write and the checked `totalCertificatesIssued++`. -/
def issueCertificate (s : State) (certHash sender timestamp : Nat) :
    Except EvmError State :=
  if certHash = 0 then
    .error (.revert "Invalid certificate hash: cannot be zero")
  else if (s.certs certHash).isValid = true then
    .error (.revert "Certificate already issued")
  else if (s.certs certHash).issuer ≠ 0 then
    .error (.revert "Certificate was previously issued and revoked")
  else if UINT256_MAX < s.totalCertificatesIssued + 1 then
    .error (.arithmeticError 17)
  else
    .ok ⟨s.store certHash ⟨true, sender, timestamp⟩,
         s.totalCertificatesIssued + 1, s.totalCertificatesRevoked⟩

/-- `revokeCertificate(bytes32 certHash)`: modifiers `validHash`,
`certificateExists`, `onlyIssuer` in order, then
`certificates[certHash].isValid = false` and the checked
`totalCertificatesRevoked++`. -/
def revokeCertificate (s : State) (certHash sender : Nat) :
    Except EvmError State :=
  if certHash = 0 then
    .error (.revert "Invalid certificate hash: cannot be zero")
  else if (s.certs certHash).isValid = false then
    .error (.revert "Certificate does not exist or has been revoked")
  else if (s.certs certHash).issuer ≠ sender then
    .error (.revert "Not authorized: only the issuer can revoke this certificate")
  else if UINT256_MAX < s.totalCertificatesRevoked + 1 then
    .error (.arithmeticError 17)
  else
    .ok ⟨s.store certHash ⟨false, (s.certs certHash).issuer, (s.certs certHash).issuedAt⟩,
         s.totalCertificatesIssued, s.totalCertificatesRevoked + 1⟩

/-- `verifyCertificate(bytes32 certHash)`: `validHash`, then the record's
`(isValid, issuer, issuedAt)`.  A `view` function: no state change. -/
def verifyCertificate (s : State) (certHash : Nat) :
    Except EvmError (Bool × Nat × Nat) :=
  if certHash = 0 then
    .error (.revert "Invalid certificate hash: cannot be zero")
  else
    .ok ((s.certs certHash).isValid, (s.certs certHash).issuer,
         (s.certs certHash).issuedAt)

/-- `isCertificateValid(bytes32)`. -/
def isCertificateValid (s : State) (certHash : Nat) : Bool :=
  (s.certs certHash).isValid

/-- `getCertificateIssuer(bytes32)`. -/
def getCertificateIssuer (s : State) (certHash : Nat) : Nat :=
  (s.certs certHash).issuer

/-- `getCertificateIssuedAt(bytes32)`. -/
def getCertificateIssuedAt (s : State) (certHash : Nat) : Nat :=
  (s.certs certHash).issuedAt

/-- `getStatistics()`: `(totalCertificatesIssued, totalCertificatesRevoked,
totalCertificatesIssued - totalCertificatesRevoked)`; the `uint256`
subtraction reverts with `Panic(0x11)` on underflow. -/
def getStatistics (s : State) : Except EvmError (Nat × Nat × Nat) :=
  if s.totalCertificatesIssued < s.totalCertificatesRevoked then
    .error (.arithmeticError 17)
  else
    .ok (s.totalCertificatesIssued, s.totalCertificatesRevoked,
         s.totalCertificatesIssued - s.totalCertificatesRevoked)

/-- `getCertificateDetails(bytes32)`: `(isValid, issuer, issuedAt,
certExists)` where `certExists = (issuer != address(0))`. -/
def getCertificateDetails (s : State) (certHash : Nat) :
    Bool × Nat × Nat × Bool :=
  ((s.certs certHash).isValid, (s.certs certHash).issuer,
   (s.certs certHash).issuedAt, (s.certs certHash).issuer != 0)

/-- The spec's per-key lifecycle states (spec section 4.2). -/
inductive KeyState where
  | unknown
  | active
  | revoked
deriving Repr, DecidableEq

/-- Abstraction of a stored record to the spec's state machine:
`Active` iff the record is valid; otherwise `Unknown` when no issuer was
ever recorded, `Revoked` when one was. -/
def keyState (s : State) (k : Nat) : KeyState :=
  if (s.certs k).isValid = true then .active
  else if (s.certs k).issuer = 0 then .unknown
  else .revoked

/-- The contract's state-mutating entry points (`verifyCertificate` and
the getters are `view` functions and cannot write storage). -/
inductive Op where
  | issue (certHash sender timestamp : Nat)
  | revoke (certHash sender : Nat)

def Op.sender : Op → Nat
  | .issue _ a _ => a
  | .revoke _ a => a

def exec (s : State) : Op → Except EvmError State
  | .issue h a t => issueCertificate s h a t
  | .revoke h a => revokeCertificate s h a

/-- EVM transaction semantics: a reverted call leaves storage unchanged. -/
def applyTx (s : State) (op : Op) : State :=
  match exec s op with
  | .ok s' => s'
  | .error _ => s

/-- Reachable contract storages: deployment followed by any sequence of
transactions.  `op.sender ≠ 0` models the execution environment's
guarantee that `msg.sender` is never the zero address. -/
inductive Reachable : State → Prop where
  | init : Reachable initState
  | step (s : State) (op : Op) : Reachable s → op.sender ≠ 0 →
      Reachable (applyTx s op)

/-- The registry invariant: the zero key is never written; a record whose
issuer is the zero address is the untouched zero-value record; and the
valid records form a finite set whose size balances the two counters. -/
def Inv (s : State) : Prop :=
  s.certs 0 = Certificate.zero ∧
  (∀ k, (s.certs k).issuer = 0 → s.certs k = Certificate.zero) ∧
  ∃ S : Finset Nat, (∀ k, (s.certs k).isValid = true ↔ k ∈ S) ∧
    s.totalCertificatesIssued = s.totalCertificatesRevoked + S.card ∧
    s.totalCertificatesIssued ≤ UINT256_MAX

end CertQR

namespace CertIPFS

/-- The `Certificate` struct of the delete-on-revoke variant contract
(`src/unnamed/part_005`): adds the `ipfsCID` string field. -/
structure Certificate where
  isValid : Bool
  issuer : Nat
  issuedAt : Nat
  ipfsCID : String
deriving Repr, DecidableEq

def Certificate.zero : Certificate := ⟨false, 0, 0, ""⟩

/-- This variant keeps no counters: storage is just the mapping. -/
structure State where
  certs : Nat → Certificate

def initState : State := ⟨fun _ => Certificate.zero⟩

def State.store (s : State) (certHash : Nat) (c : Certificate) : Nat → Certificate :=
  fun k => if k = certHash then c else s.certs k

/-- `issueCertificate(bytes32 certHash, string ipfsCID)`: modifiers
`validHash` and `validCID` (`bytes(ipfsCID).length > 0`), one `require`
on `isValid` only (no issuer check), then the record write. -/
def issueCertificate (s : State) (certHash : Nat) (ipfsCID : String)
    (sender timestamp : Nat) : Except CertQR.EvmError State :=
  if certHash = 0 then
    .error (.revert "Invalid certificate hash")
  else if ipfsCID.length = 0 then
    .error (.revert "Invalid IPFS CID")
  else if (s.certs certHash).isValid = true then
    .error (.revert "Certificate already issued")
  else
    .ok ⟨s.store certHash ⟨true, sender, timestamp, ipfsCID⟩⟩

/-- `revokeCertificate(bytes32 certHash)`: `validHash`, two `require`s,
then `delete certificates[certHash]` — the whole record is reset to the
zero-value struct. -/
def revokeCertificate (s : State) (certHash sender : Nat) :
    Except CertQR.EvmError State :=
  if certHash = 0 then
    .error (.revert "Invalid certificate hash")
  else if (s.certs certHash).isValid = false then
    .error (.revert "Certificate does not exist")
  else if (s.certs certHash).issuer ≠ sender then
    .error (.revert "Not authorized")
  else
    .ok ⟨s.store certHash Certificate.zero⟩

/-- `verifyCertificate(bytes32)`: no modifier, returns the record's four
fields. -/
def verifyCertificate (s : State) (certHash : Nat) :
    Bool × Nat × Nat × String :=
  ((s.certs certHash).isValid, (s.certs certHash).issuer,
   (s.certs certHash).issuedAt, (s.certs certHash).ipfsCID)

/-- `getCertificateIssuer(bytes32)`. -/
def getCertificateIssuer (s : State) (certHash : Nat) : Nat :=
  (s.certs certHash).issuer

end CertIPFS

namespace Server

/-- A hex digit per the character class `[0-9a-fA-F]`. -/
def isHexDigit (c : Char) : Bool :=
  (('0' ≤ c && c ≤ '9') || ('a' ≤ c && c ≤ 'f') || ('A' ≤ c && c ≤ 'F'))

/-- `hexString.replace(/^0x/, '')`: drop one leading `0x` if present. -/
def strip0x (s : String) : String :=
  match s.data with
  | '0' :: 'x' :: rest => String.mk rest
  | _ => s

/-- The boundary pattern of `src/backend/mainserver.js` line 664:
`^(0x)?[0-9a-fA-F]{64}$`: an optional `0x` prefix, then exactly 64 hex
characters.  (A bare 64-hex-character string never itself begins with
`0x` since `x` is not a hex digit, so stripping the prefix first is
equivalent to the regex's alternation.) -/
def matchesKeyPattern (s : String) : Bool :=
  (strip0x s).data.length == 64 && (strip0x s).data.all isHexDigit

/-- `hexToBytes32` (mainserver.js lines 123-129): strips an optional `0x`,
throws on length ≠ 64, otherwise re-prefixes.  Hex characters are NOT
checked. -/
def hexToBytes32 (hexString : String) : Except String String :=
  if (strip0x hexString).length ≠ 64 then
    .error ("Invalid hex length: " ++ toString (strip0x hexString).length)
  else
    .ok ("0x" ++ strip0x hexString)

/-- What an endpoint does with a textual key: reject with an HTTP status
and message, or reach the on-chain registry call with a bytes32 key. -/
inductive BoundaryOutcome where
  | rejected (status : Nat) (message : String)
  | registryCall (bytes32Hash : String)
deriving Repr, DecidableEq

/-- `GET /api/certificate/:hash` (mainserver.js lines 654-671): regex
check first (400 on mismatch), then `hexToBytes32`, then
`contract.verifyCertificate`; a thrown conversion error lands in the
catch block (500). -/
def getCertificateByHash (hash : String) : BoundaryOutcome :=
  if matchesKeyPattern hash = false then
    .rejected 400 "Invalid hash format"
  else
    match hexToBytes32 hash with
    | .ok b => .registryCall b
    | .error _ => .rejected 500 "Failed to fetch certificate details"

/-- `POST /api/verify-qr` (mainserver.js lines 407-445), from the point
where the textual key was extracted from the QR payload: `hexToBytes32`
directly — no regex check — then `contract.verifyCertificate`; a thrown
conversion error lands in the catch block (500). -/
def verifyQr (certificateHash : String) : BoundaryOutcome :=
  match hexToBytes32 certificateHash with
  | .ok b => .registryCall b
  | .error _ => .rejected 500 "Failed to verify certificate"

end Server

namespace CertQR

theorem issue_ok_iff (s : State) (h a t : Nat) (s' : State) :
    issueCertificate s h a t = .ok s' ↔
      h ≠ 0 ∧ (s.certs h).isValid = false ∧ (s.certs h).issuer = 0 ∧
      s.totalCertificatesIssued + 1 ≤ UINT256_MAX ∧
      s' = ⟨s.store h ⟨true, a, t⟩, s.totalCertificatesIssued + 1,
            s.totalCertificatesRevoked⟩ := by
  unfold issueCertificate
  split_ifs with h1 h2 h3 h4
  · exact iff_of_false (by simp) (by simp [h1])
  · exact iff_of_false (by simp) (by simp [h2])
  · exact iff_of_false (by simp) (by simp [h3])
  · exact iff_of_false (by simp)
      (by rintro ⟨-, -, -, hle, -⟩; exact absurd hle (Nat.not_le.mpr h4))
  · rw [Except.ok.injEq]
    simp only [Bool.not_eq_true] at h2
    push_neg at h3
    constructor
    · intro hE
      exact ⟨h1, h2, h3, Nat.not_lt.mp h4, hE.symm⟩
    · rintro ⟨-, -, -, -, rfl⟩
      rfl

theorem revoke_ok_iff (s : State) (h a : Nat) (s' : State) :
    revokeCertificate s h a = .ok s' ↔
      h ≠ 0 ∧ (s.certs h).isValid = true ∧ (s.certs h).issuer = a ∧
      s.totalCertificatesRevoked + 1 ≤ UINT256_MAX ∧
      s' = ⟨s.store h ⟨false, (s.certs h).issuer, (s.certs h).issuedAt⟩,
            s.totalCertificatesIssued, s.totalCertificatesRevoked + 1⟩ := by
  unfold revokeCertificate
  split_ifs with h1 h2 h3 h4
  · exact iff_of_false (by simp) (by simp [h1])
  · exact iff_of_false (by simp) (by simp [h2])
  · exact iff_of_false (by simp) (by simp [h3])
  · exact iff_of_false (by simp)
      (by rintro ⟨-, -, -, hle, -⟩; exact absurd hle (Nat.not_le.mpr h4))
  · rw [Except.ok.injEq]
    simp only [Bool.not_eq_false] at h2
    push_neg at h3
    constructor
    · intro hE
      exact ⟨h1, h2, h3, Nat.not_lt.mp h4, hE.symm⟩
    · rintro ⟨-, -, -, -, rfl⟩
      rfl

theorem applyTx_of_ok {s s' : State} {op : Op} (hE : exec s op = .ok s') :
    applyTx s op = s' := by
  unfold applyTx
  rw [hE]

theorem applyTx_of_error {s : State} {op : Op} {e : EvmError}
    (hE : exec s op = .error e) : applyTx s op = s := by
  unfold applyTx
  rw [hE]

theorem inv_init : Inv initState := by
  refine ⟨rfl, fun k _ => rfl, ∅, ?_, rfl, ?_⟩
  · intro k
    simp [initState, Certificate.zero]
  · simp [initState]

theorem inv_applyTx (s : State) (op : Op) (hI : Inv s) (hs : op.sender ≠ 0) :
    Inv (applyTx s op) := by
  obtain ⟨h0, hzero, S, hmem, hcount, hbound⟩ := hI
  cases op with
  | issue h a t =>
    simp only [Op.sender] at hs
    cases hE : exec s (.issue h a t) with
    | error e =>
      rw [applyTx_of_error hE]
      exact ⟨h0, hzero, S, hmem, hcount, hbound⟩
    | ok s' =>
      rw [applyTx_of_ok hE]
      simp only [exec] at hE
      obtain ⟨hne, hval, -, hle, rfl⟩ := (issue_ok_iff s h a t s').mp hE
      have hnotmem : h ∉ S := by
        intro hmem'
        rw [← hmem h, hval] at hmem'
        cases hmem'
      refine ⟨?_, ?_, insert h S, ?_, ?_, hle⟩
      · simp only [State.store]
        rw [if_neg (Ne.symm hne)]
        exact h0
      · intro k hk
        by_cases hkh : k = h
        · subst hkh
          simp only [State.store, if_pos rfl] at hk
          exact absurd hk hs
        · simp only [State.store, if_neg hkh] at hk ⊢
          exact hzero k hk
      · intro k
        by_cases hkh : k = h
        · subst hkh
          simp [State.store]
        · simp only [State.store, if_neg hkh, hmem k, Finset.mem_insert]
          simp [hkh]
      · rw [Finset.card_insert_of_not_mem hnotmem]
        dsimp only
        omega
  | revoke h a =>
    simp only [Op.sender] at hs
    cases hE : exec s (.revoke h a) with
    | error e =>
      rw [applyTx_of_error hE]
      exact ⟨h0, hzero, S, hmem, hcount, hbound⟩
    | ok s' =>
      rw [applyTx_of_ok hE]
      simp only [exec] at hE
      obtain ⟨hne, hval, hiss, -, rfl⟩ := (revoke_ok_iff s h a s').mp hE
      have hmemS : h ∈ S := (hmem h).mp hval
      have hpos : 0 < S.card := Finset.card_pos.mpr ⟨h, hmemS⟩
      refine ⟨?_, ?_, S.erase h, ?_, ?_, hbound⟩
      · simp only [State.store]
        rw [if_neg (Ne.symm hne)]
        exact h0
      · intro k hk
        by_cases hkh : k = h
        · subst hkh
          simp only [State.store, if_pos rfl] at hk
          rw [hiss] at hk
          exact absurd hk hs
        · simp only [State.store, if_neg hkh] at hk ⊢
          exact hzero k hk
      · intro k
        by_cases hkh : k = h
        · subst hkh
          simp [State.store]
        · simp only [State.store, if_neg hkh, hmem k, Finset.mem_erase]
          simp [hkh]
      · rw [Finset.card_erase_of_mem hmemS]
        dsimp only
        omega

theorem reachable_inv {s : State} (hR : Reachable s) : Inv s := by
  induction hR with
  | init => exact inv_init
  | step s op hR hs ih => exact inv_applyTx s op ih hs

theorem keyState_active_iff (s : State) (k : Nat) :
    keyState s k = .active ↔ (s.certs k).isValid = true := by
  unfold keyState
  by_cases hv : (s.certs k).isValid = true
  · simp [hv]
  · rw [if_neg hv]
    by_cases hi : (s.certs k).issuer = 0
    · simp [hi, hv]
    · simp [hi, hv]

theorem keyState_unknown_iff (s : State) (k : Nat) :
    keyState s k = .unknown ↔
      (s.certs k).isValid = false ∧ (s.certs k).issuer = 0 := by
  unfold keyState
  by_cases hv : (s.certs k).isValid = true
  · simp [hv]
  · rw [if_neg hv]
    by_cases hi : (s.certs k).issuer = 0
    · simp [hi, Bool.not_eq_true] at hv ⊢
      exact hv
    · simp [hi]

theorem keyState_revoked_iff (s : State) (k : Nat) :
    keyState s k = .revoked ↔
      (s.certs k).isValid = false ∧ (s.certs k).issuer ≠ 0 := by
  unfold keyState
  by_cases hv : (s.certs k).isValid = true
  · simp [hv]
  · rw [if_neg hv]
    by_cases hi : (s.certs k).issuer = 0
    · simp [hi]
    · simp [hi, Bool.not_eq_true] at hv ⊢
      exact hv

theorem unknown_record {s : State} (hI : Inv s) {k : Nat}
    (hu : keyState s k = .unknown) : s.certs k = Certificate.zero := by
  unfold keyState at hu
  by_cases hv : (s.certs k).isValid = true
  · rw [if_pos hv] at hu
    cases hu
  · rw [if_neg hv] at hu
    by_cases hi : (s.certs k).issuer = 0
    · exact hI.2.1 k hi
    · rw [if_neg hi] at hu
      cases hu

theorem active_facts {s : State} (hI : Inv s) {k : Nat}
    (ha : keyState s k = .active) :
    (s.certs k).isValid = true ∧ k ≠ 0 ∧ (s.certs k).issuer ≠ 0 := by
  unfold keyState at ha
  by_cases hv : (s.certs k).isValid = true
  · refine ⟨hv, ?_, ?_⟩
    · intro hk0
      rw [hk0, hI.1] at hv
      cases hv
    · intro hi0
      rw [hI.2.1 k hi0] at hv
      cases hv
  · rw [if_neg hv] at ha
    by_cases hi : (s.certs k).issuer = 0
    · rw [if_pos hi] at ha
      cases ha
    · rw [if_neg hi] at ha
      cases ha

theorem revoked_facts {s : State} (hI : Inv s) {k : Nat}
    (hr : keyState s k = .revoked) :
    (s.certs k).isValid = false ∧ k ≠ 0 ∧ (s.certs k).issuer ≠ 0 := by
  unfold keyState at hr
  by_cases hv : (s.certs k).isValid = true
  · rw [if_pos hv] at hr
    cases hr
  · rw [if_neg hv] at hr
    by_cases hi : (s.certs k).issuer = 0
    · rw [if_pos hi] at hr
      cases hr
    · refine ⟨by simpa using hv, ?_, hi⟩
      intro hk0
      rw [hk0, hI.1] at hi
      exact hi rfl

/-- C1: per-key lifecycle Unknown → Active → Revoked.  A successful
`issueCertificate` is possible only from `Unknown` and moves the key to
`Active`; a successful `revokeCertificate` is possible only from `Active`
and moves it to `Revoked`; no transaction moves a `Revoked` key out of
`Revoked`; and no transaction (with a non-zero sender, as the EVM
guarantees) moves a key back to `Unknown`, so Issue succeeds at most once
and Revoke at most once per key. -/
theorem c1_lifecycle :
    (∀ s h a t s', issueCertificate s h a t = .ok s' →
      keyState s h = .unknown ∧ keyState s' h = .active) ∧
    (∀ s h a s', a ≠ 0 → revokeCertificate s h a = .ok s' →
      keyState s h = .active ∧ keyState s' h = .revoked) ∧
    (∀ s op k, keyState s k = .revoked → keyState (applyTx s op) k = .revoked) ∧
    (∀ s op, op.sender ≠ 0 → ∀ k, keyState s k ≠ .unknown →
      keyState (applyTx s op) k ≠ .unknown) := by
  refine ⟨?_, ?_, ?_, ?_⟩
  · intro s h a t s' hE
    obtain ⟨hne, hval, hiss, -, rfl⟩ := (issue_ok_iff s h a t s').mp hE
    refine ⟨(keyState_unknown_iff s h).mpr ⟨hval, hiss⟩, ?_⟩
    rw [keyState_active_iff]
    simp [State.store]
  · intro s h a s' ha hE
    obtain ⟨hne, hval, hiss, -, rfl⟩ := (revoke_ok_iff s h a s').mp hE
    refine ⟨(keyState_active_iff s h).mpr hval, ?_⟩
    rw [keyState_revoked_iff]
    simp only [State.store, if_pos rfl]
    simp [hiss, ha]
  · intro s op k hr
    rw [keyState_revoked_iff] at hr
    obtain ⟨hv, hi⟩ := hr
    rw [keyState_revoked_iff]
    cases op with
    | issue h a t =>
      cases hE : exec s (.issue h a t) with
      | error e =>
        rw [applyTx_of_error hE]
        exact ⟨hv, hi⟩
      | ok s' =>
        rw [applyTx_of_ok hE]
        simp only [exec] at hE
        obtain ⟨-, -, hiss, -, rfl⟩ := (issue_ok_iff s h a t s').mp hE
        have hkh : k ≠ h := fun hkh => hi (hkh ▸ hiss)
        simp only [State.store, if_neg hkh]
        exact ⟨hv, hi⟩
    | revoke h a =>
      cases hE : exec s (.revoke h a) with
      | error e =>
        rw [applyTx_of_error hE]
        exact ⟨hv, hi⟩
      | ok s' =>
        rw [applyTx_of_ok hE]
        simp only [exec] at hE
        obtain ⟨-, hval, -, -, rfl⟩ := (revoke_ok_iff s h a s').mp hE
        have hkh : k ≠ h := by
          intro hkh
          rw [hkh, hval] at hv
          cases hv
        simp only [State.store, if_neg hkh]
        exact ⟨hv, hi⟩
  · intro s op hs k hk
    simp only [ne_eq, keyState_unknown_iff] at hk ⊢
    cases op with
    | issue h a t =>
      simp only [Op.sender] at hs
      cases hE : exec s (.issue h a t) with
      | error e =>
        rw [applyTx_of_error hE]
        exact hk
      | ok s' =>
        rw [applyTx_of_ok hE]
        simp only [exec] at hE
        obtain ⟨-, -, -, -, rfl⟩ := (issue_ok_iff s h a t s').mp hE
        by_cases hkh : k = h
        · subst hkh
          simp [State.store]
        · simp only [State.store, if_neg hkh]
          exact hk
    | revoke h a =>
      simp only [Op.sender] at hs
      cases hE : exec s (.revoke h a) with
      | error e =>
        rw [applyTx_of_error hE]
        exact hk
      | ok s' =>
        rw [applyTx_of_ok hE]
        simp only [exec] at hE
        obtain ⟨-, -, hiss, -, rfl⟩ := (revoke_ok_iff s h a s').mp hE
        by_cases hkh : k = h
        · subst hkh
          simp only [State.store, if_pos rfl]
          simp [hiss, hs]
        · simp only [State.store, if_neg hkh]
          exact hk

/-- Witness for C1 at concrete inputs: issue key 1 by sender 5 at time 10,
then revoke by 5; the key ends `Revoked` and a further issue attempt
leaves it `Revoked`. -/
theorem c1_lifecycle_witness :
    keyState (applyTx initState (.issue 1 5 10)) 1 = .active ∧
    keyState (applyTx (applyTx initState (.issue 1 5 10)) (.revoke 1 5)) 1 =
      .revoked ∧
    keyState
      (applyTx (applyTx (applyTx initState (.issue 1 5 10)) (.revoke 1 5))
        (.issue 1 7 20)) 1 = .revoked := by
  have h1 := c1_lifecycle.1 initState 1 5 10
    (applyTx initState (.issue 1 5 10)) (by rfl)
  have h2 := c1_lifecycle.2.1 (applyTx initState (.issue 1 5 10)) 1 5
    (applyTx (applyTx initState (.issue 1 5 10)) (.revoke 1 5))
    (by decide) (by rfl)
  have h3 := c1_lifecycle.2.2.1
    (applyTx (applyTx initState (.issue 1 5 10)) (.revoke 1 5))
    (.issue 1 7 20) 1 h2.2
  exact ⟨h1.2, h2.2, h3⟩

/-- C2: after a successful issue of key h by sender a at time t and a
successful revoke by the same a, only the active flag changed:
`verifyCertificate` reports `(false, a, t)`, the was-ever-issued flag of
`getCertificateDetails` stays true, `totalCertificatesRevoked` grew by
exactly 1, `totalCertificatesIssued` is unchanged, every other key's
record is unchanged, and the key's record keeps its issuer and timestamp.
(This contract stores no storage locator; the spec treats the absent
field as the empty string, so it is trivially unchanged.) -/
theorem c2_revoke_frame (s : State) (h a t : Nat) (s1 s2 : State)
    (ha : a ≠ 0)
    (hI : issueCertificate s h a t = .ok s1)
    (hR : revokeCertificate s1 h a = .ok s2) :
    verifyCertificate s2 h = .ok (false, a, t) ∧
    (getCertificateDetails s2 h).2.2.2 = true ∧
    s2.totalCertificatesRevoked = s1.totalCertificatesRevoked + 1 ∧
    s2.totalCertificatesIssued = s1.totalCertificatesIssued ∧
    (∀ k, k ≠ h → s2.certs k = s1.certs k) ∧
    s2.certs h = ⟨false, a, t⟩ := by
  obtain ⟨hne, -, -, -, rfl⟩ := (issue_ok_iff s h a t s1).mp hI
  obtain ⟨-, -, -, -, rfl⟩ := (revoke_ok_iff _ h a s2).mp hR
  refine ⟨?_, ?_, rfl, rfl, ?_, ?_⟩
  · simp [verifyCertificate, State.store, hne]
  · simp [getCertificateDetails, State.store, bne_iff_ne, ha]
  · intro k hk
    simp [State.store, hk]
  · simp [State.store]

/-- Witness for C2: issue key 1 by sender 5 at time 10, revoke by 5;
verification reports the revoked record with its original metadata. -/
theorem c2_revoke_frame_witness :
    verifyCertificate
      (applyTx (applyTx initState (.issue 1 5 10)) (.revoke 1 5)) 1 =
      .ok (false, 5, 10) ∧
    (getCertificateDetails
      (applyTx (applyTx initState (.issue 1 5 10)) (.revoke 1 5)) 1).2.2.2 =
      true := by
  have H := c2_revoke_frame initState 1 5 10
    (applyTx initState (.issue 1 5 10))
    (applyTx (applyTx initState (.issue 1 5 10)) (.revoke 1 5))
    (by decide) (by rfl) (by rfl)
  exact ⟨H.1, H.2.1⟩

/-- C3: both counters are monotone under every transaction; a successful
issue increments `totalCertificatesIssued` by exactly 1 and leaves
`totalCertificatesRevoked` unchanged; a successful revoke increments
`totalCertificatesRevoked` by exactly 1 and leaves
`totalCertificatesIssued` unchanged; and on every reachable state
`getStatistics` succeeds and returns the two counters together with
their difference as the active count.  (All other contract entry points
are Solidity `view` functions, embedded as pure reads that take no
state.) -/
theorem c3_counters :
    (∀ s op, s.totalCertificatesIssued ≤ (applyTx s op).totalCertificatesIssued ∧
      s.totalCertificatesRevoked ≤ (applyTx s op).totalCertificatesRevoked) ∧
    (∀ s h a t s', issueCertificate s h a t = .ok s' →
      s'.totalCertificatesIssued = s.totalCertificatesIssued + 1 ∧
      s'.totalCertificatesRevoked = s.totalCertificatesRevoked) ∧
    (∀ s h a s', revokeCertificate s h a = .ok s' →
      s'.totalCertificatesRevoked = s.totalCertificatesRevoked + 1 ∧
      s'.totalCertificatesIssued = s.totalCertificatesIssued) ∧
    (∀ s, Reachable s → getStatistics s =
      .ok (s.totalCertificatesIssued, s.totalCertificatesRevoked,
           s.totalCertificatesIssued - s.totalCertificatesRevoked)) := by
  refine ⟨?_, ?_, ?_, ?_⟩
  · intro s op
    cases op with
    | issue h a t =>
      cases hE : exec s (.issue h a t) with
      | error e =>
        rw [applyTx_of_error hE]
        exact ⟨le_refl _, le_refl _⟩
      | ok s' =>
        rw [applyTx_of_ok hE]
        simp only [exec] at hE
        obtain ⟨-, -, -, -, rfl⟩ := (issue_ok_iff s h a t s').mp hE
        exact ⟨Nat.le_succ _, le_refl _⟩
    | revoke h a =>
      cases hE : exec s (.revoke h a) with
      | error e =>
        rw [applyTx_of_error hE]
        exact ⟨le_refl _, le_refl _⟩
      | ok s' =>
        rw [applyTx_of_ok hE]
        simp only [exec] at hE
        obtain ⟨-, -, -, -, rfl⟩ := (revoke_ok_iff s h a s').mp hE
        exact ⟨le_refl _, Nat.le_succ _⟩
  · intro s h a t s' hE
    obtain ⟨-, -, -, -, rfl⟩ := (issue_ok_iff s h a t s').mp hE
    exact ⟨rfl, rfl⟩
  · intro s h a s' hE
    obtain ⟨-, -, -, -, rfl⟩ := (revoke_ok_iff s h a s').mp hE
    exact ⟨rfl, rfl⟩
  · intro s hR
    obtain ⟨-, -, S, -, hcount, -⟩ := reachable_inv hR
    unfold getStatistics
    rw [if_neg (Nat.not_lt.mpr (by omega))]

/-- Witness for C3: one issue from the initial state bumps the issued
counter to 1, and statistics on the initial state report (0, 0, 0). -/
theorem c3_counters_witness :
    (applyTx initState (.issue 1 5 10)).totalCertificatesIssued = 1 ∧
    (applyTx initState (.issue 1 5 10)).totalCertificatesRevoked = 0 ∧
    getStatistics initState = .ok (0, 0, 0) := by
  have H := c3_counters.2.1 initState 1 5 10
    (applyTx initState (.issue 1 5 10)) (by rfl)
  have HS := c3_counters.2.2.2 initState Reachable.init
  exact ⟨H.1, H.2, HS⟩

/-- C4: issuing an already-Active key fails with the
"Certificate already issued" revert, and the reverted transaction leaves
the whole state — the key's record and both counters — unchanged. -/
theorem c4_reissue_fails (s : State) (h a t : Nat) (hR : Reachable s)
    (hA : keyState s h = .active) :
    issueCertificate s h a t = .error (.revert "Certificate already issued") ∧
    applyTx s (.issue h a t) = s := by
  have hI := reachable_inv hR
  obtain ⟨hv, hne, -⟩ := active_facts hI hA
  have hE : issueCertificate s h a t =
      .error (.revert "Certificate already issued") := by
    unfold issueCertificate
    rw [if_neg hne, if_pos hv]
  exact ⟨hE, applyTx_of_error hE⟩

/-- Witness for C4: after issuing key 1 the second issue attempt (by a
different sender) reverts with "Certificate already issued" and the
state is untouched. -/
theorem c4_reissue_fails_witness :
    issueCertificate (applyTx initState (.issue 1 5 10)) 1 7 20 =
      .error (.revert "Certificate already issued") ∧
    applyTx (applyTx initState (.issue 1 5 10)) (.issue 1 7 20) =
      applyTx initState (.issue 1 5 10) := by
  have hR : Reachable (applyTx initState (.issue 1 5 10)) :=
    Reachable.step initState (.issue 1 5 10) Reachable.init (by decide)
  exact c4_reissue_fails (applyTx initState (.issue 1 5 10)) 1 7 20 hR (by rfl)

/-- C5: revoking an Active key from a caller b other than the recorded
issuer fails with the "Not authorized" revert and the reverted
transaction leaves the entire registry state unchanged. -/
theorem c5_unauthorized_revoke (s : State) (h b : Nat) (hR : Reachable s)
    (hA : keyState s h = .active) (hb : b ≠ (s.certs h).issuer) :
    revokeCertificate s h b =
      .error (.revert "Not authorized: only the issuer can revoke this certificate") ∧
    applyTx s (.revoke h b) = s := by
  have hI := reachable_inv hR
  obtain ⟨hv, hne, -⟩ := active_facts hI hA
  have hE : revokeCertificate s h b =
      .error (.revert "Not authorized: only the issuer can revoke this certificate") := by
    unfold revokeCertificate
    rw [if_neg hne, if_neg (by simp [hv]), if_pos (Ne.symm hb)]
  exact ⟨hE, applyTx_of_error hE⟩

/-- Witness for C5: key 1 issued by 5; a revoke by 7 reverts with the
authorization error and changes nothing. -/
theorem c5_unauthorized_revoke_witness :
    revokeCertificate (applyTx initState (.issue 1 5 10)) 1 7 =
      .error (.revert "Not authorized: only the issuer can revoke this certificate") ∧
    applyTx (applyTx initState (.issue 1 5 10)) (.revoke 1 7) =
      applyTx initState (.issue 1 5 10) := by
  have hR : Reachable (applyTx initState (.issue 1 5 10)) :=
    Reachable.step initState (.issue 1 5 10) Reachable.init (by decide)
  exact c5_unauthorized_revoke (applyTx initState (.issue 1 5 10)) 1 7 hR
    (by rfl) (by decide)

/-- C6 counterexample: the claim says a Revoked key fails with an
`AlreadyRevoked` error distinct from the Unknown key's `NotFound`.  In
the code both cases go through the single `certificateExists` modifier:
key 1 (issued then revoked, hence `Revoked`) and key 2 (never issued,
hence `Unknown`) produce the IDENTICAL revert
"Certificate does not exist or has been revoked". -/
theorem c6_counterexample :
    keyState (applyTx (applyTx initState (.issue 1 5 10)) (.revoke 1 5)) 1 =
      .revoked ∧
    keyState initState 2 = .unknown ∧
    revokeCertificate
      (applyTx (applyTx initState (.issue 1 5 10)) (.revoke 1 5)) 1 9 =
      .error (.revert "Certificate does not exist or has been revoked") ∧
    revokeCertificate initState 2 9 =
      .error (.revert "Certificate does not exist or has been revoked") := by
  exact ⟨rfl, rfl, rfl, rfl⟩

/-- C6 amended: `revokeCertificate` distinguishes only TWO failure
causes for a well-formed key: keys in state Unknown or Revoked both fail
with the single combined revert "Certificate does not exist or has been
revoked" (the code does not separate NotFound from AlreadyRevoked), and
an Active key with a caller other than the recorded issuer fails with
the distinct "Not authorized" revert. -/
theorem c6_amended (s : State) (h b : Nat) (hne : h ≠ 0) :
    ((keyState s h = .unknown ∨ keyState s h = .revoked) →
      revokeCertificate s h b =
        .error (.revert "Certificate does not exist or has been revoked")) ∧
    (keyState s h = .active → (s.certs h).issuer ≠ b →
      revokeCertificate s h b =
        .error (.revert "Not authorized: only the issuer can revoke this certificate")) := by
  constructor
  · intro hcase
    have hv : (s.certs h).isValid = false := by
      cases hcase with
      | inl hu => exact ((keyState_unknown_iff s h).mp hu).1
      | inr hr => exact ((keyState_revoked_iff s h).mp hr).1
    unfold revokeCertificate
    rw [if_neg hne, if_pos hv]
  · intro hA hb
    have hv : (s.certs h).isValid = true := (keyState_active_iff s h).mp hA
    unfold revokeCertificate
    rw [if_neg hne, if_neg (by simp [hv]), if_pos hb]

/-- Witness for the C6 amendment: revoking the never-issued key 3 from
the initial state yields the combined not-found/already-revoked revert,
and revoking key 1 (issued by 5) as caller 7 yields the authorization
revert. -/
theorem c6_amended_witness :
    revokeCertificate initState 3 9 =
      .error (.revert "Certificate does not exist or has been revoked") ∧
    revokeCertificate (applyTx initState (.issue 1 5 10)) 1 7 =
      .error (.revert "Not authorized: only the issuer can revoke this certificate") := by
  constructor
  · exact (c6_amended initState 3 9 (by decide)).1 (Or.inl rfl)
  · exact (c6_amended (applyTx initState (.issue 1 5 10)) 1 7 (by decide)).2
      (by rfl) (by decide)

/-- C7: for every reachable state and non-zero key, `verifyCertificate`
never reverts — it returns the record's fields; for a never-issued
(Unknown) key that is the zero-value record `(false, 0, 0)`; for a
Revoked key the preserved record with the active flag false and a
non-zero issuer; for an Active key the full record with the active flag
true.  (This contract stores no storage locator; per the spec the absent
field reads as the empty string.) -/
theorem c7_verify (s : State) (h : Nat) (hR : Reachable s) (hne : h ≠ 0) :
    verifyCertificate s h =
      .ok ((s.certs h).isValid, (s.certs h).issuer, (s.certs h).issuedAt) ∧
    (keyState s h = .unknown → verifyCertificate s h = .ok (false, 0, 0)) ∧
    (keyState s h = .revoked →
      verifyCertificate s h =
        .ok (false, (s.certs h).issuer, (s.certs h).issuedAt) ∧
      (s.certs h).issuer ≠ 0) ∧
    (keyState s h = .active →
      verifyCertificate s h =
        .ok (true, (s.certs h).issuer, (s.certs h).issuedAt) ∧
      (s.certs h).issuer ≠ 0) := by
  have hI := reachable_inv hR
  have hok : verifyCertificate s h =
      .ok ((s.certs h).isValid, (s.certs h).issuer, (s.certs h).issuedAt) := by
    unfold verifyCertificate
    rw [if_neg hne]
  refine ⟨hok, ?_, ?_, ?_⟩
  · intro hu
    rw [hok, unknown_record hI hu]
    rfl
  · intro hr
    obtain ⟨hv, -, hiss⟩ := revoked_facts hI hr
    rw [hok, hv]
    exact ⟨rfl, hiss⟩
  · intro hA
    obtain ⟨hv, -, hiss⟩ := active_facts hI hA
    rw [hok, hv]
    exact ⟨rfl, hiss⟩

/-- Witness for C7: in the initial state the never-issued key 2 verifies
without error as the zero-value record. -/
theorem c7_verify_witness :
    verifyCertificate initState 2 = .ok (false, 0, 0) := by
  exact ((c7_verify initState 2 Reachable.init (by decide)).2.1) rfl

/-- C9: on every reachable state `totalCertificatesRevoked` never
exceeds `totalCertificatesIssued`, so the `uint256` subtraction inside
`getStatistics` cannot underflow and `getStatistics` always succeeds. -/
theorem c9_stats_safe (s : State) (hR : Reachable s) :
    s.totalCertificatesRevoked ≤ s.totalCertificatesIssued ∧
    getStatistics s =
      .ok (s.totalCertificatesIssued, s.totalCertificatesRevoked,
           s.totalCertificatesIssued - s.totalCertificatesRevoked) := by
  obtain ⟨-, -, S, -, hcount, -⟩ := reachable_inv hR
  have hle : s.totalCertificatesRevoked ≤ s.totalCertificatesIssued := by omega
  refine ⟨hle, ?_⟩
  unfold getStatistics
  rw [if_neg (Nat.not_lt.mpr hle)]

/-- Witness for C9 at a concrete reachable state: after one issue and
one revoke, the statistics call succeeds with (1, 1, 0). -/
theorem c9_stats_safe_witness :
    getStatistics (applyTx (applyTx initState (.issue 1 5 10)) (.revoke 1 5)) =
      .ok (1, 1, 0) := by
  have hR : Reachable (applyTx (applyTx initState (.issue 1 5 10)) (.revoke 1 5)) :=
    Reachable.step _ (.revoke 1 5)
      (Reachable.step initState (.issue 1 5 10) Reachable.init (by decide))
      (by decide)
  exact (c9_stats_safe _ hR).2

end CertQR

namespace Server

/-- C8 counterexample: the claim says every textual key not matching
`^(0x)?[0-9a-fA-F]{64}$` — explicitly including 64-character strings of
non-hex characters — is rejected before any registry call.  The string
of 64 'z' characters does not match the pattern, yet the
`/api/verify-qr` boundary (which runs only `hexToBytes32`'s length
check) forwards it to the on-chain `verifyCertificate` call. -/
theorem c8_counterexample :
    matchesKeyPattern (String.mk (List.replicate 64 'z')) = false ∧
    verifyQr (String.mk (List.replicate 64 'z')) =
      .registryCall (String.mk ('0' :: 'x' :: List.replicate 64 'z')) := by
  exact ⟨by decide, by decide⟩

/-- C8 amended: only the `GET /api/certificate/:hash` boundary validates
the full pattern `^(0x)?[0-9a-fA-F]{64}$`, rejecting every non-matching
key with the 400 "Invalid hash format" error before any registry call.
The QR boundaries (`/api/verify-qr`, and `/api/revoke-qr` which uses
the same conversion) validate only the length through `hexToBytes32`: a
key whose de-prefixed length differs from 64 is rejected (the thrown
conversion error surfaces as the endpoint's 500 response) before the
registry call, but every string of 64 characters after the optional
`0x` — hex or not — reaches the registry call. -/
theorem c8_amended :
    (∀ s, matchesKeyPattern s = false →
      getCertificateByHash s = .rejected 400 "Invalid hash format") ∧
    (∀ s, (strip0x s).length ≠ 64 →
      verifyQr s = .rejected 500 "Failed to verify certificate") ∧
    (∀ s, (strip0x s).length = 64 →
      verifyQr s = .registryCall ("0x" ++ strip0x s)) := by
  refine ⟨?_, ?_, ?_⟩
  · intro s hs
    unfold getCertificateByHash
    rw [if_pos hs]
  · intro s hs
    have hconv : hexToBytes32 s =
        .error ("Invalid hex length: " ++ toString (strip0x s).length) := by
      unfold hexToBytes32
      rw [if_pos hs]
    unfold verifyQr
    rw [hconv]
  · intro s hs
    have hconv : hexToBytes32 s = .ok ("0x" ++ strip0x s) := by
      unfold hexToBytes32
      rw [if_neg (fun hco => hco hs)]
    unfold verifyQr
    rw [hconv]

/-- Witness for the C8 amendment at concrete strings: "xyz" is rejected
by the regex boundary with 400 and by the QR boundary with 500; a
64-character hex string reaches the registry call from the QR
boundary. -/
theorem c8_amended_witness :
    getCertificateByHash "xyz" = .rejected 400 "Invalid hash format" ∧
    verifyQr "xyz" = .rejected 500 "Failed to verify certificate" ∧
    verifyQr (String.mk (List.replicate 64 'a')) =
      .registryCall ("0x" ++ String.mk (List.replicate 64 'a')) := by
  refine ⟨?_, ?_, ?_⟩
  · exact c8_amended.1 "xyz" (by decide)
  · exact c8_amended.2.1 "xyz" (by decide)
  · exact c8_amended.2.2 (String.mk (List.replicate 64 'a'))
      (by decide)

end Server

namespace CertIPFS

/-- C10: in the delete-on-revoke variant, a successful
`revokeCertificate` erases the whole record: it equals the zero-value
record, `verifyCertificate` reports the zero-value tuple and
`getCertificateIssuer` the zero address (indistinguishable from a
never-issued key), and a subsequent `issueCertificate` of the same key
with any non-empty CID succeeds — from any sender, who then becomes the
key's new issuer. -/
theorem revoke_delete_ok_iff (s : State) (h a : Nat) (s' : State) :
    revokeCertificate s h a = .ok s' ↔
      h ≠ 0 ∧ (s.certs h).isValid = true ∧ (s.certs h).issuer = a ∧
      s' = ⟨s.store h Certificate.zero⟩ := by
  unfold revokeCertificate
  split_ifs with h1 h2 h3
  · exact iff_of_false (by simp) (by simp [h1])
  · exact iff_of_false (by simp) (by simp [h2])
  · exact iff_of_false (by simp) (by simp [h3])
  · rw [Except.ok.injEq]
    simp only [Bool.not_eq_false] at h2
    push_neg at h3
    constructor
    · intro hE
      exact ⟨h1, h2, h3, hE.symm⟩
    · rintro ⟨-, -, -, rfl⟩
      rfl

theorem c10_delete_on_revoke (s : State) (h a : Nat) (s' : State)
    (hRev : revokeCertificate s h a = .ok s') :
    s'.certs h = Certificate.zero ∧
    verifyCertificate s' h = (false, 0, 0, "") ∧
    getCertificateIssuer s' h = 0 ∧
    (∀ b t cid, cid.length ≠ 0 →
      ∃ s2, issueCertificate s' h cid b t = .ok s2 ∧
        getCertificateIssuer s2 h = b ∧
        (s2.certs h).isValid = true ∧ (s2.certs h).ipfsCID = cid) := by
  obtain ⟨h1, -, -, rfl⟩ := (revoke_delete_ok_iff s h a s').mp hRev
  have hzero : (State.store s h Certificate.zero) h = Certificate.zero := by
    simp [State.store]
  refine ⟨hzero, ?_, ?_, ?_⟩
  · unfold verifyCertificate
    rw [show (⟨s.store h Certificate.zero⟩ : State).certs h = Certificate.zero from hzero]
    rfl
  · unfold getCertificateIssuer
    rw [show (⟨s.store h Certificate.zero⟩ : State).certs h = Certificate.zero from hzero]
    rfl
  · intro b t cid hcid
    refine ⟨⟨State.store ⟨s.store h Certificate.zero⟩ h ⟨true, b, t, cid⟩⟩, ?_, ?_, ?_, ?_⟩
    · unfold issueCertificate
      rw [if_neg h1, if_neg hcid,
        if_neg (by rw [show (⟨s.store h Certificate.zero⟩ : State).certs h = Certificate.zero from hzero]; simp [Certificate.zero])]
    · unfold getCertificateIssuer
      simp [State.store]
    · simp [State.store]
    · simp [State.store]

/-- Witness for C10 at concrete inputs: key 1 issued by 5 with CID
"cid", revoked by 5; the record reads as never issued and a re-issue by
sender 7 with CID "cid2" succeeds and records 7 as the new issuer. -/
theorem c10_delete_on_revoke_witness :
    verifyCertificate ⟨State.store ⟨initState.store 1 ⟨true, 5, 10, "cid"⟩⟩ 1 Certificate.zero⟩ 1 =
      (false, 0, 0, "") ∧
    (∃ s2, issueCertificate ⟨State.store ⟨initState.store 1 ⟨true, 5, 10, "cid"⟩⟩ 1 Certificate.zero⟩ 1 "cid2" 7 20 = .ok s2 ∧
      getCertificateIssuer s2 1 = 7 ∧
      (s2.certs 1).isValid = true ∧ (s2.certs 1).ipfsCID = "cid2") := by
  have H := c10_delete_on_revoke ⟨initState.store 1 ⟨true, 5, 10, "cid"⟩⟩ 1 5
    ⟨State.store ⟨initState.store 1 ⟨true, 5, 10, "cid"⟩⟩ 1 Certificate.zero⟩
    (by rfl)
  exact ⟨H.2.1, H.2.2.2 7 20 "cid2" (by decide)⟩

end CertIPFS
